import Mathlib

/-!
Verification of a GraphQL user-account service (TypeScript sources:
`models/user.ts` and the authenticated generation of `index.ts`).

The embedding models:
* the `Account` document of the mongoose `userSchema` (username, email,
  address required; email unique; password optional, hashed by the
  pre-save hook; role defaults to `"User"`);
* the bcrypt password primitives used by the pre-save hook and
  `comparePassword` (external library, modelled from the spec contract);
* the jsonwebtoken primitives used by `generateAuthToken` and the
  per-request `context` function (external library, modelled from the
  spec contract);
* the document store operations (`findById`, `find` with
  sort/skip/limit, `countDocuments`, `save` with required-field
  validation and the duplicate-key error, `findByIdAndDelete`);
* the six resolvers `getUser`, `getUsers`, `createUser`, `loginUser`,
  `updateUser`, `deleteUser` and the server `context` function.
-/

/-- An account document as declared by `userSchema`.  `username`, `email`
and `address` are `Option String` because a mongoose path can be unset
(assigning `undefined` unsets it); `required: true` is enforced at save
time, not in the record type.  `password` is not required by the schema.
`role` defaults to `"User"` and is always set. -/
structure Account where
  id : Nat
  username : Option String
  email : Option String
  password : Option String
  address : Option String
  role : String
deriving DecidableEq, Repr

/-- The GraphQL `UserInput` (all fields optional). -/
structure UserInput where
  username : Option String
  email : Option String
  password : Option String
  address : Option String
deriving DecidableEq, Repr

/-- The GraphQL `UpdateUserInput`: no `password`, no `role` field. -/
structure UpdateUserInput where
  username : Option String
  email : Option String
  address : Option String
deriving DecidableEq, Repr

/-! ## bcrypt model

Modelled from the spec: the bcryptjs primitives `genSalt`/`hash`/`compare`
are an external library; the spec contract is that `hash` embeds a freshly
randomized salt in the produced string (so two hashes of the same
plaintext with different salts are different strings) and `compare`
re-derives the salt and cost from the stored hash and recomputes.  The
salt is made an explicit parameter (the model of the randomness), the
digest is a deterministic scramble of salt and plaintext, and the encoded
string is `$2b$10$<salt digits>$<digest digits>`. -/

/-- Decimal digit to character. -/
def digitChar : Nat → Char
  | 0 => '0' | 1 => '1' | 2 => '2' | 3 => '3' | 4 => '4'
  | 5 => '5' | 6 => '6' | 7 => '7' | 8 => '8' | _ => '9'

/-- Character back to decimal digit (left inverse of `digitChar` on
digits). -/
def digitVal : Char → Nat
  | '0' => 0 | '1' => 1 | '2' => 2 | '3' => 3 | '4' => 4
  | '5' => 5 | '6' => 6 | '7' => 7 | '8' => 8 | _ => 9

/-- Little-endian decimal digits of `n`, with explicit fuel so the
definition is structural and kernel-reducible. -/
def toDigitsRev (fuel n : Nat) : List Nat :=
  match fuel with
  | 0 => []
  | fuel + 1 => if n = 0 then [] else n % 10 :: toDigitsRev fuel (n / 10)

/-- Little-endian decimal digits of `n`. -/
def natDigits (n : Nat) : List Nat := toDigitsRev n n

/-- Evaluate a little-endian digit list back to a number. -/
def ofDigitsLE : List Nat → Nat
  | [] => 0
  | d :: ds => d + 10 * ofDigitsLE ds

/-- The fixed algorithm/cost header of a bcrypt hash string. -/
def bcryptHeader : List Char := ['$', '2', 'b', '$', '1', '0', '$']

/-- The deterministic digest of the model: a fold of the plaintext
characters seeded by the salt. -/
def bcryptDigest (salt : Nat) (plaintext : String) : Nat :=
  plaintext.data.foldl (fun a c => a * 131 + c.toNat + 1) (salt + 1)

/-- Model of `bcrypt.hash(plaintext, salt)`: the salt is embedded in the
produced string between the header and the digest. -/
def bcryptHash (salt : Nat) (plaintext : String) : String :=
  String.mk (bcryptHeader ++ (natDigits salt).map digitChar
    ++ '$' :: (natDigits (bcryptDigest salt plaintext)).map digitChar)

/-- Recover the salt embedded in a stored hash string. -/
def extractSalt (hash : String) : Nat :=
  ofDigitsLE (((hash.data.drop 7).takeWhile (fun c => c ≠ '$')).map digitVal)

/-- Model of `bcrypt.compare(candidate, hash)`: re-derive the salt from
the stored hash, recompute, and compare the full strings. -/
def bcryptCompare (candidate hash : String) : Bool :=
  bcryptHash (extractSalt hash) candidate == hash

/-- The `userSchema.pre("save")` hook body: `bcrypt.genSalt(10)` then
`bcrypt.hash`; the fresh salt is the explicit `salt` argument. -/
def hashPassword (salt : Nat) (plaintext : String) : String :=
  bcryptHash salt plaintext

/-- `userSchema.methods.comparePassword`. -/
def comparePassword (candidatePassword stored : String) : Bool :=
  bcryptCompare candidatePassword stored

/-! ## jsonwebtoken model

Modelled from the spec: `jwt.sign(payload, secret, {expiresIn: "1h"})`
produces a signed token carrying its payload, signing key and absolute
expiry; `jwt.verify(token, secret)` succeeds exactly when the token is
well formed, its key equals the secret and it is unexpired, and returns
the decoded payload (which is either a string or an object that may or
may not carry a `userId`). -/

/-- A decoded JWT payload: `typeof decoded === "string"` or an object,
whose `userId` claim may be absent. -/
inductive JwtPayload where
  | str (s : String)
  | obj (userId : Option Nat)
deriving DecidableEq, Repr

/-- A bearer token as the verifier sees it. -/
inductive JwtToken where
  | malformed
  | signed (payload : JwtPayload) (key : String) (exp : Nat)
deriving DecidableEq, Repr

/-- Model of `jwt.verify(token, secret)` at time `now`: `none` means the
library throws (malformed token, wrong key, or expired). -/
def jwtVerify (t : JwtToken) (secret : String) (now : Nat) : Option JwtPayload :=
  match t with
  | .malformed => none
  | .signed payload key exp =>
      if key = secret ∧ now < exp then some payload else none

/-- `userSchema.methods.generateAuthToken`: signs `{userId: this._id, ...}`
with the process secret, expiring one hour from `now`. -/
def generateAuthToken (u : Account) (secret : String) (now : Nat) : JwtToken :=
  .signed (.obj (some u.id)) secret (now + 3600)

/-! ## Document store model

Modelled from the spec: the mongoose/MongoDB collaborator.  `save`
validates `required` paths before the pre-save hooks run, then the write
surfaces a `MongoServerError` with code 11000 when the unique email index
is violated.  A write addresses exactly one document, by `_id`. -/

/-- Error object surfaced by a failed store write: either a mongoose
`ValidationError` (missing required path) or a `MongoServerError` with
`code === 11000` (duplicate key). -/
inductive DbError where
  | validation (msg : String)
  | dupKey (msg : String)
deriving DecidableEq, Repr

def validationFailMsg : String := "User validation failed"

def dupKeyErrMsg : String := "E11000 duplicate key error collection"

def notFoundMsg : String := "User not found"

/-- The TypeError message raised when the resolver dereferences
`user.role` on a `null` context user. -/
def typeErrMsg : String := "Cannot read properties of null (reading role)"

def serverErrMsg : String := "Server Error"

def internalErrMsg : String := "Internal Server Error"

/-- Required-path validation of `userSchema`: `username`, `email` and
`address` are `required: true`; `password` is not. -/
def validAccount (a : Account) : Bool :=
  a.username.isSome && a.email.isSome && a.address.isSome

/-- Replace the (first) document with the given `_id`; a store write
addresses one document. -/
def replaceById (id : Nat) (updated : Account) : List Account → List Account
  | [] => []
  | a :: rest =>
      if a.id == id then updated :: rest else a :: replaceById id updated rest

/-- `save()` on a new document: validation, then the pre-save hashing
hook (all set paths of a new document are modified, so a present
password is hashed), then the insert, which raises the duplicate-key
error when the unique email index is violated. -/
def saveNew (db : List Account) (doc : Account) (salt : Nat) :
    Except DbError (Account × List Account) :=
  if ¬ validAccount doc then .error (.validation validationFailMsg)
  else
    let hashed :=
      match doc.password with
      | some p => { doc with password := some (bcryptHash salt p) }
      | none => doc
    if db.any (fun a => a.email == hashed.email) then .error (.dupKey dupKeyErrMsg)
    else .ok (hashed, db ++ [hashed])

/-- `save()` on a loaded document: validation, then the pre-save hook
(`isModified("password")` — the update path never touches the password,
so `pwModified` is `false` there), then the write with the unique email
index checked against every other document. -/
def saveExisting (db : List Account) (doc : Account) (pwModified : Bool)
    (salt : Nat) : Except DbError (Account × List Account) :=
  if ¬ validAccount doc then .error (.validation validationFailMsg)
  else
    let hashed :=
      match pwModified, doc.password with
      | true, some p => { doc with password := some (bcryptHash salt p) }
      | _, _ => doc
    if db.any (fun a => a.id != hashed.id && a.email == hashed.email) then
      .error (.dupKey dupKeyErrMsg)
    else .ok (hashed, replaceById hashed.id hashed db)

/-! ## Resolvers (authenticated generation of `index.ts`)

Each resolver receives the destructured context user: `some u` when the
context carried an account, `none` when it carried `null` (valid token
whose `userId` matches no account) — dereferencing `user.role` then
raises a TypeError that the resolver's `catch` turns into a 500
envelope. -/

structure SingleUserResponse where
  status : Nat
  success : Bool
  message : Option String := none
  error : Option String := none
  user : Option Account := none
deriving DecidableEq, Repr

structure PageInfo where
  totalUsers : Nat
  totalPages : Nat
  currentPage : Option Nat
deriving DecidableEq, Repr

structure UsersResponse where
  status : Nat
  success : Bool
  message : Option String := none
  error : Option String := none
  data : Option (List Account) := none
  pageInfo : Option PageInfo := none
deriving DecidableEq, Repr

structure CreateResponse where
  status : Nat
  success : Bool
  message : Option String := none
  error : Option String := none
  data : Option Account := none
deriving DecidableEq, Repr

structure LoginResponse where
  status : Nat
  success : Bool
  message : Option String := none
  user : Option Account := none
  token : Option JwtToken := none
deriving DecidableEq, Repr

structure UpdateDeleteResponse where
  status : Nat
  success : Bool
  message : Option String := none
  user : Option Account := none
deriving DecidableEq, Repr

/-- `Query.getUser`. -/
def getUser (ctxUser : Option Account) (db : List Account) (id : Nat) :
    SingleUserResponse :=
  match ctxUser with
  | none =>
      { status := 500, success := false, message := some serverErrMsg,
        error := some typeErrMsg }
  | some u =>
      if u.role ≠ "Admin" then
        { success := false, status := 403, message := some "Forbidden" }
      else
        match db.find? (fun a => a.id == id) with
        | none =>
            { status := 500, success := false, message := some serverErrMsg,
              error := some notFoundMsg }
        | some singleUser =>
            { status := 200, success := true, user := some singleUser }

/-- Mongoose `sort(sortBy)` on the known paths (ascending; absent values
first, as the store orders missing before present). -/
def fieldGet (key : String) (a : Account) : Option String :=
  match key with
  | "username" => a.username
  | "email" => a.email
  | "address" => a.address
  | "role" => some a.role
  | _ => none

def optLeStr : Option String → Option String → Bool
  | none, _ => true
  | some _, none => false
  | some x, some y => !(decide (y < x))

def mongoSort (key : String) (db : List Account) : List Account :=
  db.mergeSort (fun a b => optLeStr (fieldGet key a) (fieldGet key b))

/-- `Query.getUsers`: role gate, then `find()` with optional sort, then
`skip((page-1)*(limit||0))` when `page` is truthy and `limit(limit)`
when `limit` is truthy (the store applies sort, then skip, then limit),
then `countDocuments()` and `Math.ceil(totalUsers/(limit||10))`. -/
def getUsers (ctxUser : Option Account) (db : List Account)
    (limit? page? : Option Nat) (sortBy? : Option String) : UsersResponse :=
  match ctxUser with
  | none =>
      { status := 500, success := false, message := some serverErrMsg,
        error := some typeErrMsg }
  | some u =>
      if u.role ≠ "Admin" then
        { success := false, status := 403, message := some "Forbidden" }
      else
        let l := limit?.getD 0
        let p := page?.getD 0
        let sorted :=
          match sortBy? with
          | some key => if key ≠ "" then mongoSort key db else db
          | none => db
        let afterSkip := if p ≠ 0 then sorted.drop ((p - 1) * l) else sorted
        let users := if l ≠ 0 then afterSkip.take l else afterSkip
        let d := if l ≠ 0 then l else 10
        { status := 200, success := true, data := some users,
          pageInfo := some ⟨db.length, (db.length + d - 1) / d, page?⟩,
          message := none }

/-- `Mutation.createUser`: role gate, build the document from the input,
`save()`; the `catch` maps the duplicate-key error to a 400
"Email already exists" envelope and everything else to 500.  On success
the source returns `data: user` — the context caller, not the document
just created. -/
def createUser (ctxUser : Option Account) (db : List Account)
    (userInput : UserInput) (newId salt : Nat) :
    CreateResponse × List Account :=
  match ctxUser with
  | none =>
      ({ status := 500, success := false, message := some internalErrMsg,
         error := some typeErrMsg }, db)
  | some u =>
      if u.role ≠ "Admin" then
        ({ success := false, status := 403, message := some "Forbidden" }, db)
      else
        let doc : Account :=
          { id := newId, username := userInput.username,
            email := userInput.email, password := userInput.password,
            address := userInput.address, role := "User" }
        match saveNew db doc salt with
        | .error (.dupKey m) =>
            ({ status := 400, success := false,
               message := some "Email already exists", error := some m }, db)
        | .error (.validation m) =>
            ({ status := 500, success := false,
               message := some internalErrMsg, error := some m }, db)
        | .ok (_, db2) =>
            ({ status := 201, success := true,
               message := some "User created successfully",
               data := some u }, db2)

/-- `Mutation.loginUser` (public; does not read the context): find by
email, `comparePassword`, `generateAuthToken`; every thrown error is
caught into a 500 envelope carrying the error message. -/
def loginUser (db : List Account) (email password : String)
    (secret : String) (now : Nat) : LoginResponse :=
  match db.find? (fun a => a.email == some email) with
  | none => { status := 500, success := false, message := some notFoundMsg }
  | some u =>
      match u.password with
      | none =>
          { status := 500, success := false,
            message := some "Illegal arguments" }
      | some h =>
          if comparePassword password h then
            { status := 200, success := true, user := some u,
              token := some (generateAuthToken u secret now),
              message := some "Login successfully" }
          else
            { status := 500, success := false,
              message := some "Invalid password" }

/-- `Mutation.updateUser`: role gate, `findById`, unconditional
assignment of `username`, `email`, `address` from the input (an omitted
input field assigns `undefined`, unsetting the path), then `save()`;
every thrown error (not-found, validation, duplicate key) is caught into
a 500 envelope carrying the error message. -/
def updateUser (ctxUser : Option Account) (db : List Account) (id : Nat)
    (userInput : UpdateUserInput) : UpdateDeleteResponse × List Account :=
  match ctxUser with
  | none =>
      ({ status := 500, success := false, message := some typeErrMsg }, db)
  | some u =>
      if u.role ≠ "Admin" then
        ({ success := false, status := 403, message := some "Forbidden" }, db)
      else
        match db.find? (fun a => a.id == id) with
        | none =>
            ({ status := 500, success := false,
               message := some notFoundMsg }, db)
        | some singleUser =>
            let updated :=
              { singleUser with
                username := userInput.username
                email := userInput.email
                address := userInput.address }
            match saveExisting db updated false 0 with
            | .error (.validation m) =>
                ({ status := 500, success := false, message := some m }, db)
            | .error (.dupKey m) =>
                ({ status := 500, success := false, message := some m }, db)
            | .ok (saved, db2) =>
                ({ status := 200, success := true,
                   message := some "User updated successfully",
                   user := some saved }, db2)

/-- `Mutation.deleteUser`: role gate, `findByIdAndDelete`; a missing
document throws "User not found", caught into a 500 envelope. -/
def deleteUser (ctxUser : Option Account) (db : List Account) (id : Nat) :
    UpdateDeleteResponse × List Account :=
  match ctxUser with
  | none =>
      ({ status := 500, success := false, message := some typeErrMsg }, db)
  | some u =>
      if u.role ≠ "Admin" then
        ({ success := false, status := 403, message := some "Forbidden" }, db)
      else
        match db.find? (fun a => a.id == id) with
        | none =>
            ({ status := 500, success := false,
               message := some notFoundMsg }, db)
        | some deletedUser =>
            ({ status := 200, success := true,
               message := some "User deleted successfully",
               user := some deletedUser }, db.eraseP (fun a => a.id == id))

/-! ## The server `context` function -/

/-- The context value returned on the token-bearing path:
`{ token, user }`, where `user` is `null` when `findById` matched no
account. -/
structure Ctx where
  token : String
  user : Option Account
deriving DecidableEq, Repr

/-- Outcome of the `context` function.  `typeErr` is the uncaught
TypeError raised by `req.headers.authorization.split(" ")` when the
authorization header is absent; `thrown` is the `GraphQLError` rethrown
by the `catch`; `ok none` models the function returning `undefined`
(header present but no truthy token after the split). -/
inductive ContextOutcome where
  | typeErr
  | thrown (message code : String) (status : Nat)
  | ok (ctx : Option Ctx)
deriving DecidableEq, Repr

/-- JavaScript `String.prototype.split(" ")` on a character list: split
at every single space, keeping empty fragments. -/
def splitSpaceChars : List Char → List (List Char)
  | [] => [[]]
  | c :: rest =>
      if c = ' ' then [] :: splitSpaceChars rest
      else
        match splitSpaceChars rest with
        | [] => [[c]]
        | w :: ws => (c :: w) :: ws

/-- JavaScript `header.split(" ")`. -/
def jsSplitSpace (s : String) : List String :=
  (splitSpaceChars s.data).map String.mk

/-- The `startStandaloneServer` context function.  `decodeTok` is the
ambient decoding of a header token string into the token object
`jwt.verify` sees.  `header.split(" ")[1]` is `undefined` when the
header has no second fragment; `undefined` and `""` are both falsy, so
both are modelled as `""`. -/
def context (decodeTok : String → JwtToken) (secret : String) (now : Nat)
    (db : List Account) (authHeader : Option String) : ContextOutcome :=
  match authHeader with
  | none => .typeErr
  | some header =>
      let token := (jsSplitSpace header).getD 1 ""
      if token = "" then .ok none
      else
        match jwtVerify (decodeTok token) secret now with
        | none => .thrown "Invalid token" "INVALID_TOKEN" 401
        | some (.str _) => .thrown "Invalid token" "INVALID_TOKEN" 401
        | some (.obj none) => .thrown "Invalid token" "INVALID_TOKEN" 401
        | some (.obj (some userId)) =>
            .ok (some ⟨token, db.find? (fun a => a.id == userId)⟩)

/-- A resolver runs only when the context function returned a value. -/
def resolverReached : ContextOutcome → Bool
  | .ok _ => true
  | _ => false

/-! ## Supporting lemmas for the bcrypt model -/

theorem digitVal_digitChar (d : Nat) (h : d < 10) : digitVal (digitChar d) = d := by
  interval_cases d <;> decide

theorem digitChar_ne_dollar (d : Nat) : digitChar d ≠ '$' := by
  unfold digitChar
  split <;> decide

theorem toDigitsRev_lt (fuel : Nat) : ∀ n, ∀ d ∈ toDigitsRev fuel n, d < 10 := by
  induction fuel with
  | zero => intro n d hd; simp [toDigitsRev] at hd
  | succ fuel ih =>
      intro n d hd
      by_cases h0 : n = 0
      · simp [toDigitsRev, h0] at hd
      · simp only [toDigitsRev, if_neg h0, List.mem_cons] at hd
        rcases hd with h | h
        · subst h; omega
        · exact ih _ _ h

theorem ofDigitsLE_toDigitsRev (fuel : Nat) :
    ∀ n, n ≤ fuel → ofDigitsLE (toDigitsRev fuel n) = n := by
  induction fuel with
  | zero => intro n h; interval_cases n; simp [toDigitsRev, ofDigitsLE]
  | succ fuel ih =>
      intro n h
      by_cases h0 : n = 0
      · simp [toDigitsRev, h0, ofDigitsLE]
      · have hdiv : n / 10 ≤ fuel := by omega
        simp only [toDigitsRev, if_neg h0, ofDigitsLE, ih _ hdiv]
        omega

theorem ofDigitsLE_natDigits (n : Nat) : ofDigitsLE (natDigits n) = n :=
  ofDigitsLE_toDigitsRev n n le_rfl

/-- The salt embedded by `bcryptHash` is recovered by `extractSalt`. -/
theorem extractSalt_bcryptHash (s : Nat) (p : String) :
    extractSalt (bcryptHash s p) = s := by
  unfold extractSalt bcryptHash
  have hdata : (String.mk (bcryptHeader ++ (natDigits s).map digitChar
      ++ '$' :: (natDigits (bcryptDigest s p)).map digitChar)).data
      = bcryptHeader ++ (natDigits s).map digitChar
        ++ '$' :: (natDigits (bcryptDigest s p)).map digitChar := rfl
  rw [hdata]
  have hdrop : (bcryptHeader ++ (natDigits s).map digitChar
      ++ '$' :: (natDigits (bcryptDigest s p)).map digitChar).drop 7
      = (natDigits s).map digitChar
        ++ '$' :: (natDigits (bcryptDigest s p)).map digitChar := by
    simp [bcryptHeader]
  rw [hdrop]
  have htw : (((natDigits s).map digitChar
      ++ '$' :: (natDigits (bcryptDigest s p)).map digitChar).takeWhile
        (fun c => decide (c ≠ '$')))
      = (natDigits s).map digitChar := by
    rw [List.takeWhile_append_of_pos]
    · simp [List.takeWhile_cons]
    · intro c hc
      rcases List.mem_map.mp hc with ⟨d, _, rfl⟩
      simp [digitChar_ne_dollar d]
  rw [htw, List.map_map]
  have hcongr : ((natDigits s).map (digitVal ∘ digitChar))
      = (natDigits s).map id := by
    apply List.map_congr_left
    intro d hd
    exact digitVal_digitChar d (toDigitsRev_lt s s d hd)
  rw [hcongr, List.map_id, ofDigitsLE_natDigits]

/-- Claim C2: for every plaintext password `p`, verifying `p` against the
hash produced by the pre-save hashing step returns true, and hashing the
same plaintext with two distinct fresh salts (the model of the
randomized salt) yields two different stored hash strings. -/
theorem C2_verify_roundtrip_and_fresh_salt (p : String) (s1 s2 : Nat)
    (h : s1 ≠ s2) :
    comparePassword p (hashPassword s1 p) = true
    ∧ hashPassword s1 p ≠ hashPassword s2 p := by
  constructor
  · unfold comparePassword bcryptCompare hashPassword
    rw [extractSalt_bcryptHash]
    exact beq_self_eq_true _
  · intro hEq
    have heq2 := congrArg extractSalt hEq
    unfold hashPassword at heq2
    rw [extractSalt_bcryptHash, extractSalt_bcryptHash] at heq2
    exact h heq2

/-- Witness for C2 at plaintext `"hunter2"` and salts 3 and 5. -/
theorem C2_witness :
    (3 : Nat) ≠ 5
    ∧ (comparePassword "hunter2" (hashPassword 3 "hunter2") = true
       ∧ hashPassword 3 "hunter2" ≠ hashPassword 5 "hunter2") :=
  ⟨by decide, C2_verify_roundtrip_and_fresh_salt "hunter2" 3 5 (by decide)⟩

/-! ## Claim theorems: request boundary -/

/-- Claim C1: token verification rejects every invalid bearer token — for
any present token that is malformed, signed with a key other than the
process secret, expired (all three: `jwtVerify` returns `none`), or whose
decoded payload is a string or lacks a `userId`, the context function
rejects the request with the 401 `INVALID_TOKEN` authentication error
and no resolver runs. -/
theorem C1_invalid_token_rejected (decodeTok : String → JwtToken)
    (secret : String) (now : Nat) (db : List Account) (header tok : String)
    (htok : (jsSplitSpace header).getD 1 "" = tok) (hne : tok ≠ "")
    (hbad : jwtVerify (decodeTok tok) secret now = none
      ∨ (∃ s, jwtVerify (decodeTok tok) secret now = some (.str s))
      ∨ jwtVerify (decodeTok tok) secret now = some (.obj none)) :
    context decodeTok secret now db (some header)
      = .thrown "Invalid token" "INVALID_TOKEN" 401
    ∧ resolverReached (context decodeTok secret now db (some header)) = false := by
  have hctx : context decodeTok secret now db (some header)
      = .thrown "Invalid token" "INVALID_TOKEN" 401 := by
    simp only [context, htok]
    rw [if_neg hne]
    rcases hbad with h | ⟨s, h⟩ | h <;> rw [h]
  exact ⟨hctx, by rw [hctx]; rfl⟩

/-- Witness for C1: a malformed bearer token on a concrete request. -/
theorem C1_witness :
    ((jsSplitSpace "Bearer abc").getD 1 "" = "abc" ∧ ("abc" : String) ≠ ""
      ∧ jwtVerify (JwtToken.malformed) "s" 0 = none)
    ∧ (context (fun _ => JwtToken.malformed) "s" 0 [] (some "Bearer abc")
        = .thrown "Invalid token" "INVALID_TOKEN" 401
      ∧ resolverReached (context (fun _ => JwtToken.malformed) "s" 0 []
          (some "Bearer abc")) = false) :=
  ⟨⟨by decide, by decide, rfl⟩,
   C1_invalid_token_rejected (fun _ => JwtToken.malformed) "s" 0 [] "Bearer abc"
     "abc" (by decide) (by decide) (Or.inl rfl)⟩

/-- A concrete Admin caller. -/
def adminAcc : Account :=
  ⟨1, some "admin", some "admin@x.io", some "$2b$10$7$42", some "HQ", "Admin"⟩

/-- The document `createUser` builds and persists for the concrete input
`{bob, bob@x.io, pw, bobst}` with id 2 and salt 3. -/
def bobDoc : Account :=
  ⟨2, some "bob", some "bob@x.io", some (bcryptHash 3 "pw"), some "bobst", "User"⟩

/-- Claim C3 (code bug): on a successful Admin `createUser` call the
success envelope's payload is the *context caller* (`data: user`), not
the newly created account — the created document is persisted but is not
the returned payload. -/
theorem C3_createUser_payload_is_caller :
    ((createUser (some adminAcc) [adminAcc]
        ⟨some "bob", some "bob@x.io", some "pw", some "bobst"⟩ 2 3).1.data
      = some adminAcc)
    ∧ ((createUser (some adminAcc) [adminAcc]
        ⟨some "bob", some "bob@x.io", some "pw", some "bobst"⟩ 2 3).2
      = [adminAcc, bobDoc])
    ∧ ((createUser (some adminAcc) [adminAcc]
        ⟨some "bob", some "bob@x.io", some "pw", some "bobst"⟩ 2 3).1.data
      ≠ some bobDoc) := by decide

/-- A decoding environment with one correctly signed, unexpired token
`tok99` whose `userId` (99) matches no stored account. -/
def decode99 : String → JwtToken :=
  fun t => if t = "tok99" then .signed (.obj (some 99)) "s" 100 else .malformed

/-- Claim C4 counterexample: with a correctly signed, unexpired token
whose `userId` matches no account, the context carries a `null` user and
`getUser` returns a 500 envelope — not the authorization-failure (403)
envelope the claim promises. -/
theorem C4_counterexample :
    context decode99 "s" 0 [adminAcc] (some "Bearer tok99")
      = .ok (some ⟨"tok99", none⟩)
    ∧ (getUser none [adminAcc] 1).status = 500
    ∧ ¬ (getUser none [adminAcc] 1).status = 403
    ∧ (getUser none [adminAcc] 1).success = false := by decide

/-- Claim C4 as amended: for every request bearing a correctly signed,
unexpired token whose `userId` matches no account, the context resolves
to a `null` user, and each gated operation then returns a structured
*500* error envelope (the dereference of `user.role` on `null` throws a
TypeError that the resolver's catch converts) with no store mutation —
it does not crash, but it does not return an authorization-failure
envelope either. -/
theorem C4_amended (decodeTok : String → JwtToken) (secret : String)
    (now expiry : Nat) (db : List Account) (header tok : String) (uid : Nat)
    (db2 : List Account) (id newId salt : Nat) (input : UserInput)
    (uinput : UpdateUserInput) (l p : Option Nat) (sb : Option String)
    (htok : (jsSplitSpace header).getD 1 "" = tok) (hne : tok ≠ "")
    (hdec : decodeTok tok = .signed (.obj (some uid)) secret expiry)
    (hexp : now < expiry)
    (hmiss : db.find? (fun a => a.id == uid) = none) :
    context decodeTok secret now db (some header) = .ok (some ⟨tok, none⟩)
    ∧ (getUser none db2 id).status = 500
    ∧ (getUser none db2 id).success = false
    ∧ (getUsers none db2 l p sb).status = 500
    ∧ (getUsers none db2 l p sb).success = false
    ∧ (createUser none db2 input newId salt).1.status = 500
    ∧ (createUser none db2 input newId salt).1.success = false
    ∧ (createUser none db2 input newId salt).2 = db2
    ∧ (updateUser none db2 id uinput).1.status = 500
    ∧ (updateUser none db2 id uinput).1.success = false
    ∧ (updateUser none db2 id uinput).2 = db2
    ∧ (deleteUser none db2 id).1.status = 500
    ∧ (deleteUser none db2 id).1.success = false
    ∧ (deleteUser none db2 id).2 = db2 := by
  refine ⟨?_, rfl, rfl, rfl, rfl, rfl, rfl, rfl, rfl, rfl, rfl, rfl, rfl, rfl⟩
  simp only [context, htok]
  rw [if_neg hne, hdec]
  simp [jwtVerify, hexp, hmiss]

/-- Witness for the amended C4 at the concrete `tok99` request. -/
theorem C4_witness :
    ((jsSplitSpace "Bearer tok99").getD 1 "" = "tok99"
      ∧ ("tok99" : String) ≠ ""
      ∧ decode99 "tok99" = .signed (.obj (some 99)) "s" 100
      ∧ (0 : Nat) < 100
      ∧ [adminAcc].find? (fun a => a.id == 99) = none)
    ∧ (context decode99 "s" 0 [adminAcc] (some "Bearer tok99")
        = .ok (some ⟨"tok99", none⟩)
      ∧ (getUser none [adminAcc] 1).status = 500
      ∧ (getUser none [adminAcc] 1).success = false
      ∧ (getUsers none [adminAcc] (some 2) (some 1) none).status = 500
      ∧ (getUsers none [adminAcc] (some 2) (some 1) none).success = false
      ∧ (createUser none [adminAcc] ⟨some "x", some "y", some "z", some "w"⟩ 5 7).1.status = 500
      ∧ (createUser none [adminAcc] ⟨some "x", some "y", some "z", some "w"⟩ 5 7).1.success = false
      ∧ (createUser none [adminAcc] ⟨some "x", some "y", some "z", some "w"⟩ 5 7).2 = [adminAcc]
      ∧ (updateUser none [adminAcc] 1 ⟨some "x", some "y", some "w"⟩).1.status = 500
      ∧ (updateUser none [adminAcc] 1 ⟨some "x", some "y", some "w"⟩).1.success = false
      ∧ (updateUser none [adminAcc] 1 ⟨some "x", some "y", some "w"⟩).2 = [adminAcc]
      ∧ (deleteUser none [adminAcc] 1).1.status = 500
      ∧ (deleteUser none [adminAcc] 1).1.success = false
      ∧ (deleteUser none [adminAcc] 1).2 = [adminAcc]) :=
  ⟨⟨by decide, by decide, by decide, by decide, by decide⟩,
   C4_amended decode99 "s" 0 100 [adminAcc] "Bearer tok99" "tok99" 99
     [adminAcc] 1 5 7 ⟨some "x", some "y", some "z", some "w"⟩
     ⟨some "x", some "y", some "w"⟩ (some 2) (some 1) none
     (by decide) (by decide) (by decide) (by decide) (by decide)⟩

/-- Claim C5 (code bug): the context function dereferences
`req.headers.authorization` unconditionally, so a request carrying no
authorization header throws a TypeError at the boundary and no resolver
— `loginUser` included — ever runs, contradicting the public contract of
`loginUser`. -/
theorem C5_missing_header_rejected_at_boundary :
    context (fun _ => JwtToken.malformed) "s" 0 [adminAcc] none
      = ContextOutcome.typeErr
    ∧ resolverReached (context (fun _ => JwtToken.malformed) "s" 0 [adminAcc]
        none) = false := by decide

/-! ## Claim theorems: resolver behavior -/

/-- Claim C6: `getUsers` pagination — with a truthy limit `l` and page
`p` the returned slice is `drop ((p-1)*l)` then `take l` (so at most `l`
items), `pageInfo` is `{totalUsers, ceil(totalUsers / l), p}`; with
limit absent the skip offset uses limit 0 (so drop `(p-1)*0`) and
`totalPages` uses the default divisor 10. -/
theorem C6_getUsers_pagination (u : Account) (db : List Account) (l p : Nat)
    (hu : u.role = "Admin") (hl : l ≠ 0) (hp : p ≠ 0) :
    (getUsers (some u) db (some l) (some p) none).status = 200
    ∧ (getUsers (some u) db (some l) (some p) none).success = true
    ∧ (getUsers (some u) db (some l) (some p) none).data
      = some ((db.drop ((p - 1) * l)).take l)
    ∧ (getUsers (some u) db (some l) (some p) none).pageInfo
      = some ⟨db.length, db.length ⌈/⌉ l, some p⟩
    ∧ ((db.drop ((p - 1) * l)).take l).length ≤ l
    ∧ (getUsers (some u) db none (some p) none).data
      = some (db.drop ((p - 1) * 0))
    ∧ (getUsers (some u) db none (some p) none).pageInfo
      = some ⟨db.length, db.length ⌈/⌉ 10, some p⟩ := by
  refine ⟨?_, ?_, ?_, ?_, ?_, ?_, ?_⟩ <;>
    simp [getUsers, hu, hl, hp, Nat.ceilDiv_eq_add_pred_div, List.length_take]

def u1 : Account := ⟨11, some "u1", some "u1@x", some "h1", some "s1", "User"⟩
def u2 : Account := ⟨12, some "u2", some "u2@x", some "h2", some "s2", "User"⟩
def u3 : Account := ⟨13, some "u3", some "u3@x", some "h3", some "s3", "User"⟩
def u4 : Account := ⟨14, some "u4", some "u4@x", some "h4", some "s4", "User"⟩
def u5 : Account := ⟨15, some "u5", some "u5@x", some "h5", some "s5", "User"⟩

/-- Five stored accounts, in default order. -/
def db5 : List Account := [u1, u2, u3, u4, u5]

/-- Witness for C6 at limit 2, page 2 against five accounts: the 3rd and
4th accounts come back and `pageInfo = {5, 3, 2}`. -/
theorem C6_witness :
    (adminAcc.role = "Admin" ∧ (2 : Nat) ≠ 0 ∧ (2 : Nat) ≠ 0)
    ∧ ((getUsers (some adminAcc) db5 (some 2) (some 2) none).status = 200
      ∧ (getUsers (some adminAcc) db5 (some 2) (some 2) none).success = true
      ∧ (getUsers (some adminAcc) db5 (some 2) (some 2) none).data
        = some [u3, u4]
      ∧ (getUsers (some adminAcc) db5 (some 2) (some 2) none).pageInfo
        = some ⟨5, 3, some 2⟩
      ∧ (([u3, u4] : List Account)).length ≤ 2
      ∧ (getUsers (some adminAcc) db5 none (some 2) none).data = some db5
      ∧ (getUsers (some adminAcc) db5 none (some 2) none).pageInfo
        = some ⟨5, 1, some 2⟩) :=
  ⟨⟨rfl, by decide, by decide⟩,
   C6_getUsers_pagination adminAcc db5 2 2 rfl (by decide) (by decide)⟩

/-- Claim C7: creating an account whose email an existing account already
uses yields the 400 duplicate-email envelope and leaves the store — the
first account included — entirely unchanged. -/
theorem C7_duplicate_email_rejected (u a : Account) (db : List Account)
    (input : UserInput) (newId salt : Nat) (e : String)
    (hu : u.role = "Admin") (hmem : a ∈ db) (hae : a.email = some e)
    (hie : input.email = some e) (hun : input.username.isSome = true)
    (had : input.address.isSome = true) :
    (createUser (some u) db input newId salt).1
      = ⟨400, false, some "Email already exists", some dupKeyErrMsg, none⟩
    ∧ (createUser (some u) db input newId salt).2 = db := by
  obtain ⟨iu, ie, ip, ia⟩ := input
  simp only at hie hun had
  subst hie
  have hdup : ∀ pw : Option String,
      db.any (fun x => x.email == some e) = true := by
    intro _
    rw [List.any_eq_true]
    exact ⟨a, hmem, by rw [hae]; exact beq_self_eq_true _⟩
  cases ip <;>
    simp [createUser, saveNew, validAccount, hu, hun, had, hdup none]

/-- A stored non-admin account used by concrete instances. -/
def bobStored : Account :=
  ⟨2, some "bob", some "bob@x.io", some "hh", some "bobst", "User"⟩

/-- Witness for C7: a second account with `bob@x.io` is rejected with the
400 envelope and the store is unchanged. -/
theorem C7_witness :
    (adminAcc.role = "Admin" ∧ bobStored ∈ [adminAcc, bobStored]
      ∧ bobStored.email = some "bob@x.io"
      ∧ (UserInput.mk (some "eve") (some "bob@x.io") (some "pw2") (some "est")).email = some "bob@x.io"
      ∧ (UserInput.mk (some "eve") (some "bob@x.io") (some "pw2") (some "est")).username.isSome = true
      ∧ (UserInput.mk (some "eve") (some "bob@x.io") (some "pw2") (some "est")).address.isSome = true)
    ∧ ((createUser (some adminAcc) [adminAcc, bobStored]
          ⟨some "eve", some "bob@x.io", some "pw2", some "est"⟩ 9 4).1
        = ⟨400, false, some "Email already exists", some dupKeyErrMsg, none⟩
      ∧ (createUser (some adminAcc) [adminAcc, bobStored]
          ⟨some "eve", some "bob@x.io", some "pw2", some "est"⟩ 9 4).2
        = [adminAcc, bobStored]) :=
  ⟨⟨rfl, by decide, rfl, rfl, rfl, rfl⟩,
   C7_duplicate_email_rejected adminAcc bobStored [adminAcc, bobStored]
     ⟨some "eve", some "bob@x.io", some "pw2", some "est"⟩ 9 4 "bob@x.io"
     rfl (by decide) rfl rfl rfl rfl⟩

/-- Claim C8 counterexample: for a missing id, `getUser`, `updateUser`
and `deleteUser` return status 500, not the 404 the claim promises. -/
theorem C8_counterexample :
    (getUser (some adminAcc) [] 7).status = 500
    ∧ ¬ (getUser (some adminAcc) [] 7).status = 404
    ∧ (updateUser (some adminAcc) [] 7 ⟨some "x", some "y", some "z"⟩).1.status = 500
    ∧ ¬ (updateUser (some adminAcc) [] 7 ⟨some "x", some "y", some "z"⟩).1.status = 404
    ∧ (deleteUser (some adminAcc) [] 7).1.status = 500
    ∧ ¬ (deleteUser (some adminAcc) [] 7).1.status = 404 := by decide

/-- Claim C8 as amended: when no account exists at the given id, the
Admin-called `getUser`, `updateUser` and `deleteUser` each return the
uniform envelope with status 500 — the thrown "User not found" falls
into the generic catch, so the not-found member of the error taxonomy is
mapped to 500, not 404. -/
theorem C8_not_found_maps_to_500 (u : Account) (db : List Account) (id : Nat)
    (uinput : UpdateUserInput)
    (hu : u.role = "Admin") (hfind : db.find? (fun a => a.id == id) = none) :
    getUser (some u) db id
      = ⟨500, false, some serverErrMsg, some notFoundMsg, none⟩
    ∧ updateUser (some u) db id uinput
      = (⟨500, false, some notFoundMsg, none⟩, db)
    ∧ deleteUser (some u) db id
      = (⟨500, false, some notFoundMsg, none⟩, db) := by
  simp [getUser, updateUser, deleteUser, hu, hfind]

/-- Witness for the amended C8 against an empty store. -/
theorem C8_witness :
    (adminAcc.role = "Admin"
      ∧ ([] : List Account).find? (fun a => a.id == 7) = none)
    ∧ (getUser (some adminAcc) [] 7
        = ⟨500, false, some serverErrMsg, some notFoundMsg, none⟩
      ∧ updateUser (some adminAcc) [] 7 ⟨some "x", some "y", some "z"⟩
        = (⟨500, false, some notFoundMsg, none⟩, [])
      ∧ deleteUser (some adminAcc) [] 7
        = (⟨500, false, some notFoundMsg, none⟩, [])) :=
  ⟨⟨rfl, rfl⟩,
   C8_not_found_maps_to_500 adminAcc [] 7 ⟨some "x", some "y", some "z"⟩ rfl rfl⟩

/-- Replacing the document found by id with one agreeing on id, password
and role leaves the (id, password, role) projection of the store
unchanged. -/
theorem replaceById_map_frame (id : Nat) (su updated : Account)
    (hid : updated.id = su.id) (hpw : updated.password = su.password)
    (hrl : updated.role = su.role) :
    ∀ db : List Account, db.find? (fun a => a.id == id) = some su →
      (replaceById updated.id updated db).map (fun a => (a.id, a.password, a.role))
        = db.map (fun a => (a.id, a.password, a.role)) := by
  intro db
  induction db with
  | nil => intro h; simp at h
  | cons a rest ih =>
      intro hfind
      cases hab : (a.id == id) with
      | true =>
          simp only [List.find?_cons, hab] at hfind
          have ha : a = su := by injection hfind
          have hcond : (a.id == updated.id) = true := by
            rw [hid, ← ha]; exact beq_self_eq_true _
          simp only [replaceById, hcond, if_true, List.map_cons]
          rw [hid, hpw, hrl, ha]
      | false =>
          simp only [List.find?_cons, hab] at hfind
          have hsu0 := List.find?_some hfind
          have hsu : (su.id == id) = true := hsu0
          have hcond : (a.id == updated.id) = false := by
            rw [hid, beq_eq_false_iff_ne]
            rw [beq_iff_eq] at hsu
            rw [beq_eq_false_iff_ne] at hab
            rw [hsu]
            exact hab
          simp only [replaceById, hcond, Bool.false_eq_true, if_false,
            List.map_cons]
          rw [ih hfind]

/-- Claim C9: for every `updateUser` call — any caller, store, id and
input — the (id, password, role) projection of the store is unchanged:
only username, email and address of the target can change, and the
stored password hash and role are identical before and after. -/
theorem C9_update_preserves_password_and_role (ctxUser : Option Account)
    (db : List Account) (id : Nat) (input : UpdateUserInput) :
    ((updateUser ctxUser db id input).2).map
        (fun a => (a.id, a.password, a.role))
      = db.map (fun a => (a.id, a.password, a.role)) := by
  cases ctxUser with
  | none => rfl
  | some u =>
      by_cases hrole : u.role = "Admin"
      · cases hfind : db.find? (fun a => a.id == id) with
        | none => simp [updateUser, hrole, hfind]
        | some su =>
            cases hsave : saveExisting db
                { su with
                  username := input.username
                  email := input.email
                  address := input.address } false 0 with
            | error e =>
                cases e <;> simp [updateUser, hrole, hfind, hsave]
            | ok pr =>
                obtain ⟨saved, db2⟩ := pr
                have hdb2 : db2 = replaceById
                    ({ su with
                        username := input.username
                        email := input.email
                        address := input.address } : Account).id
                    { su with
                      username := input.username
                      email := input.email
                      address := input.address } db := by
                  simp only [saveExisting] at hsave
                  split at hsave
                  · exact absurd hsave (by simp)
                  · split at hsave
                    · exact absurd hsave (by simp)
                    · simp only [Except.ok.injEq, Prod.mk.injEq] at hsave
                      exact hsave.2.symm
                simp [updateUser, hrole, hfind, hsave, hdb2]
                exact replaceById_map_frame id su
                  { su with
                    username := input.username
                    email := input.email
                    address := input.address } rfl rfl rfl db hfind
      · simp [updateUser, hrole]

/-- Claim C10 counterexample: omitting `username` from the update input
does not leave the stored field overwritten with the missing value — the
save fails validation, the envelope is a 500, and the stored account
still carries its previous username. -/
theorem C10_counterexample :
    ((updateUser (some adminAcc) [adminAcc, bobStored] 2
        ⟨none, some "bob2@x.io", some "newst"⟩).2 = [adminAcc, bobStored])
    ∧ ((updateUser (some adminAcc) [adminAcc, bobStored] 2
        ⟨none, some "bob2@x.io", some "newst"⟩).1.status = 500)
    ∧ ((updateUser (some adminAcc) [adminAcc, bobStored] 2
        ⟨none, some "bob2@x.io", some "newst"⟩).1.success = false)
    ∧ ((updateUser (some adminAcc) [adminAcc, bobStored] 2
        ⟨none, some "bob2@x.io", some "newst"⟩).2.find? (fun a => a.id == 2)
      = some bobStored)
    ∧ bobStored.username = some "bob"
    ∧ ¬ bobStored.username = none := by decide

/-- Claim C10 as amended: `updateUser` assigns username, email and
address from the input unconditionally, so omitting any of them unsets a
required path; the save then fails validation, the operation returns a
500 envelope, and the stored account is left entirely at its previous
value — there is still no partial-update semantics. -/
theorem C10_omitted_field_fails_validation (u su : Account)
    (db : List Account) (id : Nat) (input : UpdateUserInput)
    (hu : u.role = "Admin") (hfind : db.find? (fun a => a.id == id) = some su)
    (hmiss : input.username = none ∨ input.email = none ∨ input.address = none) :
    (updateUser (some u) db id input).1
      = ⟨500, false, some validationFailMsg, none⟩
    ∧ (updateUser (some u) db id input).2 = db := by
  have hval : validAccount
      { su with
        username := input.username
        email := input.email
        address := input.address } = false := by
    rcases hmiss with h | h | h <;> simp [validAccount, h]
  constructor <;>
    simp [updateUser, saveExisting, hu, hfind, hval]

/-- Witness for the amended C10: omitted username on a concrete update. -/
theorem C10_witness :
    (adminAcc.role = "Admin"
      ∧ ([adminAcc, bobStored] : List Account).find? (fun a => a.id == 2)
        = some bobStored
      ∧ ((UpdateUserInput.mk none (some "bob2@x.io") (some "newst")).username = none
        ∨ (UpdateUserInput.mk none (some "bob2@x.io") (some "newst")).email = none
        ∨ (UpdateUserInput.mk none (some "bob2@x.io") (some "newst")).address = none))
    ∧ ((updateUser (some adminAcc) [adminAcc, bobStored] 2
          ⟨none, some "bob2@x.io", some "newst"⟩).1
        = ⟨500, false, some validationFailMsg, none⟩
      ∧ (updateUser (some adminAcc) [adminAcc, bobStored] 2
          ⟨none, some "bob2@x.io", some "newst"⟩).2 = [adminAcc, bobStored]) :=
  ⟨⟨rfl, by decide, Or.inl rfl⟩,
   C10_omitted_field_fails_validation adminAcc bobStored [adminAcc, bobStored] 2
     ⟨none, some "bob2@x.io", some "newst"⟩ rfl (by decide) (Or.inl rfl)⟩
